import Mathlib

/-
Verification of the push-to-talk voice-agent front end.

Shallow embedding of the turn-taking core:
  - src/config.py              (audio constants)
  - src/audio/capture.py       (MicrophoneStreamTrack: hardware callback, frame queue, recv)
  - src/audio/playback.py      (AudioPlayback.play_track error counting)
  - src/openai_client/client.py (push-to-talk state machine, gated response request)
-/

namespace Spec2Proof

/-! ## Configuration (src/config.py) -/

def SAMPLE_RATE : Nat := 8000
def CHUNK_SIZE : Nat := 1024
def CHANNELS : Nat := 1

/-! ## Capture: frame queue and hardware callback (src/audio/capture.py)

A PCM chunk is modelled as its list of int16 samples.  The queue between
the PyAudio thread and the asyncio loop is `self.frames_queue =
asyncio.Queue()` (capture.py line 20): an asyncio queue whose `maxsize`
argument is left at its default `0`, which in asyncio semantics means the
queue is never full and `put_nowait` always succeeds. -/

abbrev Chunk := List Int

structure AioQueue where
  maxsize : Nat
  items : List Chunk
deriving DecidableEq, Repr

/-- asyncio.Queue.full: a queue with maxsize 0 is never full. -/
def AioQueue.isFull (q : AioQueue) : Bool :=
  if q.maxsize = 0 then false else decide (q.maxsize ≤ q.items.length)

/-- asyncio.Queue.put_nowait: raises QueueFull (None here) when full,
otherwise appends the item. -/
def AioQueue.put_nowait (q : AioQueue) (c : Chunk) : Option AioQueue :=
  if q.isFull then none else some { q with items := q.items ++ [c] }

/-- capture.py line 20: `self.frames_queue = asyncio.Queue()` - the default
maxsize is 0, i.e. unbounded. -/
def framesQueueInit : AioQueue := { maxsize := 0, items := [] }

/-- MicrophoneStreamTrack._pyaudio_callback (capture.py lines 102-129):
the chunk is pushed via `put_nowait` only when
`not self.suspended and self.is_recording`; any exception from the push
is caught (the chunk is then dropped) and the callback always returns
`paContinue`. -/
def pyaudio_callback (suspended is_recording : Bool) (q : AioQueue) (in_data : Chunk) :
    AioQueue :=
  if !suspended && is_recording then
    match q.put_nowait in_data with
    | some q2 => q2
    | none => q
  else q

/-- Run the hardware callback over a list of incoming chunks. -/
def callbackRun (suspended is_recording : Bool) (q : AioQueue) (cs : List Chunk) : AioQueue :=
  cs.foldl (fun qq c => pyaudio_callback suspended is_recording qq c) q

/-- The queue contents after `n` hardware callbacks while unmuted and
recording, starting from the freshly created queue. -/
def framesQueueAfter (n : Nat) : AioQueue :=
  callbackRun false true framesQueueInit (List.replicate n (List.replicate CHUNK_SIZE 0))

/-- The boundedness property the spec asserts of the frame queue. -/
def framesQueueBounded : Prop :=
  ∃ B : Nat, ∀ n : Nat, (framesQueueAfter n).items.length ≤ B

/-! ## Capture: outbound frame source (MicrophoneStreamTrack.recv, capture.py 161-237)

`recv` has three return paths: a real chunk dequeued within the 0.02 s
wait, a zero-filled silence frame on `asyncio.TimeoutError`, and a
zero-filled silence frame on any other exception.  All three stamp
`frame.pts = self.samples_sent` and then do
`self.samples_sent += Config.CHUNK_SIZE`. -/

structure Frame where
  samples : Chunk
  channels : Nat
  sample_rate : Nat
  pts : Nat
deriving DecidableEq, Repr

/-- Which of the three return paths of `recv` is taken on a given call. -/
inductive RecvPath
  | real (data : Chunk)
  | timeout
  | internalError
deriving DecidableEq, Repr

/-- capture.py line 199 / 222: `np.zeros(Config.CHUNK_SIZE, dtype=np.int16)`. -/
def silence_data : Chunk := List.replicate CHUNK_SIZE 0

/-- MicrophoneStreamTrack.recv: returns the frame and the new value of
`self.samples_sent`.  On every path the frame carries the configured
channel count and sample rate, `pts` is the counter value before the
call, and the counter advances by exactly `CHUNK_SIZE`. -/
def recv (samples_sent : Nat) (path : RecvPath) : Frame × Nat :=
  match path with
  | .real data =>
      ({ samples := data, channels := CHANNELS, sample_rate := SAMPLE_RATE,
         pts := samples_sent },
       samples_sent + CHUNK_SIZE)
  | .timeout =>
      ({ samples := silence_data, channels := CHANNELS, sample_rate := SAMPLE_RATE,
         pts := samples_sent },
       samples_sent + CHUNK_SIZE)
  | .internalError =>
      ({ samples := silence_data, channels := CHANNELS, sample_rate := SAMPLE_RATE,
         pts := samples_sent },
       samples_sent + CHUNK_SIZE)

/-- The frames produced by a sequence of `recv` calls, threading the
`samples_sent` counter. -/
def recvFrames (samples_sent : Nat) : List RecvPath → List Frame
  | [] => []
  | p :: ps => (recv samples_sent p).1 :: recvFrames (recv samples_sent p).2 ps

/-! ## Playback loop (src/audio/playback.py, AudioPlayback.play_track)

Each iteration of the `while self.is_playing` loop either plays a frame
successfully, hits a benign end-of-stream condition (MediaStreamError,
ConnectionError, OSError family, TimeoutError, StopAsyncIteration, or an
exception whose message matches an end-of-stream phrase) and breaks, or
hits a real per-frame error: `consecutive_errors += 1`, break with a
fatal message once `consecutive_errors >= max_consecutive_errors`.  A
successful frame resets `consecutive_errors = 0`. -/

inductive Outcome
  | okFrame
  | endOfStream
  | frameError
deriving DecidableEq, Repr

inductive PlayExit
  | ended
  | fatal
  | exhausted
deriving DecidableEq, Repr

/-- playback.py line 55: `max_consecutive_errors = 3`. -/
def max_consecutive_errors : Nat := 3

/-- AudioPlayback.play_track (playback.py lines 51-126), as a function of
the current `consecutive_errors` counter and the sequence of per-iteration
outcomes.  `exhausted` stands for the loop still running when the outcome
sequence ends. -/
def play_track (consecutive_errors : Nat) : List Outcome → PlayExit
  | [] => .exhausted
  | .okFrame :: rest => play_track 0 rest
  | .endOfStream :: _ => .ended
  | .frameError :: rest =>
      if max_consecutive_errors ≤ consecutive_errors + 1 then .fatal
      else play_track (consecutive_errors + 1) rest

/-! ## Turn controller (src/openai_client/client.py)

State of the push-to-talk machinery: the module globals
`waiting_for_reply` and `commit_received`, the `suspended` flag of the mic track,
the open state of the data channel, and the locals of
`handle_push_to_talk` (`space_was_down`, `mute_timer`, `watchdog`,
`speech_start_time`).  Timers are one-shot: the Boolean records whether a
live (armed, uncancelled, not-yet-fired) timer exists.  `sent` is the log
of control messages pushed onto the events channel, most recent first. -/

inductive Msg
  | commitBuf
  | responseCreate
deriving DecidableEq, Repr

structure ClientState where
  waiting_for_reply : Bool
  commit_received : Bool
  suspended : Bool
  channelOpen : Bool
  space_was_down : Bool
  mute_timer : Bool
  watchdog : Bool
  speech_active : Bool
  sent : List Msg
deriving DecidableEq, Repr

/-- request_answer (client.py lines 167-182): fire response.create only
when the mic is suspended, the commit was acknowledged, and no reply is
pending; the send and the flag updates happen only if the channel is
open. -/
def request_answer (s : ClientState) : ClientState :=
  if s.suspended && s.commit_received && !s.waiting_for_reply then
    if s.channelOpen then
      { s with sent := Msg.responseCreate :: s.sent,
               waiting_for_reply := true,
               commit_received := false }
    else s
  else s

/-- check_missed_turn (client.py lines 84-95): the watchdog body only
calls `request_answer` when `commit_received and not waiting_for_reply`;
otherwise it just logs. -/
def check_missed_turn (s : ClientState) : ClientState :=
  if s.commit_received && !s.waiting_for_reply then request_answer s
  else s

/-- The `_on_mute` closure (client.py lines 139-153): suspend the mic,
send input_audio_buffer.commit if the channel is open, and arm the
watchdog timer. -/
def on_mute (s : ClientState) : ClientState :=
  let s1 : ClientState := { s with suspended := true }
  let s2 : ClientState :=
    if s1.channelOpen then { s1 with sent := Msg.commitBuf :: s1.sent } else s1
  { s2 with watchdog := true }

/-- One iteration of the `while True` loop of handle_push_to_talk
(client.py lines 110-159), given the polled `keyboard.is_pressed` value.
On a press edge both timers are cancelled and, when no reply is pending,
the mic is unmuted and a new speech segment starts.  On a release edge,
when the mic is live and a segment is active, the mute-grace timer is
armed and the segment marker cleared. -/
def pollStep (space_down : Bool) (s : ClientState) : ClientState :=
  if space_down && !s.space_was_down then
    let s1 : ClientState := { s with mute_timer := false, watchdog := false }
    let s2 : ClientState :=
      if !s1.waiting_for_reply then
        { s1 with suspended := false, speech_active := true }
      else s1
    { s2 with space_was_down := space_down }
  else if !space_down && s.space_was_down then
    let s1 : ClientState :=
      if !s.suspended && s.speech_active then
        { s with mute_timer := true, speech_active := false }
      else s
    { s1 with space_was_down := space_down }
  else
    { s with space_was_down := space_down }

/-- The events that drive the turn controller: a poll iteration, the two
timers firing, and the inbound control events handled by
OpenAIRealtimeClient._handle_event (client.py lines 354-441) that touch
turn state. -/
inductive Event
  | poll (space_down : Bool)
  | muteFire
  | watchdogFire
  | committedEvt
  | outputItemAdded
  | outputStopped
deriving DecidableEq, Repr

/-- One step of the turn controller.  A timer fires only if it is
currently armed (one-shot timers), consuming the handle.
`committedEvt` is the `input_audio_buffer.committed` branch (set
`commit_received`, then call `request_answer`); `outputItemAdded` mutes
the mic; `outputStopped` resets both turn flags. -/
def step (e : Event) (s : ClientState) : ClientState :=
  match e with
  | .poll b => pollStep b s
  | .muteFire => if s.mute_timer then on_mute { s with mute_timer := false } else s
  | .watchdogFire =>
      if s.watchdog then check_missed_turn { s with watchdog := false } else s
  | .committedEvt => request_answer { s with commit_received := true }
  | .outputItemAdded => { s with suspended := true }
  | .outputStopped => { s with waiting_for_reply := false, commit_received := false }

/-- Run a list of events in order. -/
def run (l : List Event) (s : ClientState) : ClientState :=
  l.foldl (fun st e => step e st) s

/-- Number of response.create messages in a send log. -/
def countResponseCreate (l : List Msg) : Nat := l.count Msg.responseCreate

/-- The idle state between turns: mic suspended, no flags, no timers, and
(for turn accounting) an empty send log over an open channel. -/
def idleState : ClientState :=
  { waiting_for_reply := false, commit_received := false, suspended := true,
    channelOpen := true, space_was_down := false, mute_timer := false,
    watchdog := false, speech_active := false, sent := [] }

/-- The state of a turn right after the mute-grace timer fired: press,
release, then `_on_mute` (commit sent, mic muted, watchdog armed). -/
def postMuteState : ClientState :=
  run [Event.poll true, Event.poll false, Event.muteFire] idleState

/-- The invariant of a turn after `_on_mute` ran: mic suspended, channel
open, and the send log tracks `waiting_for_reply` - one response.create
once a reply is pending, none (and no commit flag) before. -/
def turnInv (s : ClientState) : Prop :=
  s.suspended = true ∧ s.channelOpen = true ∧
  (s.waiting_for_reply = true → countResponseCreate s.sent = 1) ∧
  (s.waiting_for_reply = false →
    countResponseCreate s.sent = 0 ∧ s.commit_received = false)

/-! ## Helper lemmas -/

lemma run_nil (s : ClientState) : run [] s = s := rfl

lemma run_cons (e : Event) (l : List Event) (s : ClientState) :
    run (e :: l) s = run l (step e s) := rfl

lemma run_append (l1 l2 : List Event) (s : ClientState) :
    run (l1 ++ l2) s = run l2 (run l1 s) := by
  simp [run, List.foldl_append]

lemma step_committed_inv (s : ClientState) (h : turnInv s) :
    turnInv (step Event.committedEvt s)
    ∧ (step Event.committedEvt s).waiting_for_reply = true := by
  obtain ⟨w, cr, su, ch, swd, mt, wd, sp, sent⟩ := s
  obtain ⟨hs, hc, hw1, hw0⟩ := h
  subst hs; subst hc
  cases w
  · obtain ⟨hcount, _⟩ := hw0 rfl
    simp_all [turnInv, step, request_answer, countResponseCreate]
  · simp_all [turnInv, step, request_answer, countResponseCreate]

lemma step_watchdog_inv (s : ClientState) (h : turnInv s) :
    turnInv (step Event.watchdogFire s)
    ∧ (step Event.watchdogFire s).sent = s.sent
    ∧ (step Event.watchdogFire s).waiting_for_reply = s.waiting_for_reply := by
  obtain ⟨w, cr, su, ch, swd, mt, wd, sp, sent⟩ := s
  obtain ⟨hs, hc, hw1, hw0⟩ := h
  subst hs; subst hc
  cases w
  · obtain ⟨hcount, hcr⟩ := hw0 rfl
    subst hcr
    cases wd <;> simp_all [turnInv, step, check_missed_turn, request_answer]
  · cases wd <;> cases cr <;>
      simp_all [turnInv, step, check_missed_turn, request_answer]

lemma run_turn_events (l : List Event)
    (hl : ∀ e ∈ l, e = Event.committedEvt ∨ e = Event.watchdogFire) :
    ∀ s : ClientState, turnInv s →
      turnInv (run l s)
      ∧ ((Event.committedEvt ∈ l ∨ s.waiting_for_reply = true) →
          (run l s).waiting_for_reply = true)
      ∧ (Event.committedEvt ∉ l →
          (run l s).sent = s.sent
          ∧ (run l s).waiting_for_reply = s.waiting_for_reply) := by
  induction l with
  | nil =>
      intro s h
      refine ⟨h, ?_, fun _ => ⟨rfl, rfl⟩⟩
      intro hmem
      rcases hmem with h1 | h1
      · exact absurd h1 (List.not_mem_nil _)
      · exact h1
  | cons e l ih =>
      intro s h
      have he := hl e (List.mem_cons_self e l)
      have hl2 : ∀ x ∈ l, x = Event.committedEvt ∨ x = Event.watchdogFire :=
        fun x hx => hl x (List.mem_cons_of_mem e hx)
      rcases he with rfl | rfl
      · obtain ⟨hinv2, hw2⟩ := step_committed_inv s h
        obtain ⟨hinv3, hw3, _⟩ := (ih hl2) (step Event.committedEvt s) hinv2
        refine ⟨by rw [run_cons]; exact hinv3, ?_, ?_⟩
        · intro _
          rw [run_cons]
          exact hw3 (Or.inr hw2)
        · intro hnot
          exact absurd (List.mem_cons_self _ _) hnot
      · obtain ⟨hinv2, hsent2, hw2⟩ := step_watchdog_inv s h
        obtain ⟨hinv3, hw3, hnc3⟩ := (ih hl2) (step Event.watchdogFire s) hinv2
        refine ⟨by rw [run_cons]; exact hinv3, ?_, ?_⟩
        · intro hmem
          rw [run_cons]
          refine hw3 ?_
          rcases hmem with hmem | hmem
          · rcases List.mem_cons.mp hmem with hbad | hmem2
            · exact absurd hbad (by simp)
            · exact Or.inl hmem2
          · exact Or.inr (hw2.trans hmem)
        · intro hnot
          have hnot2 : Event.committedEvt ∉ l := fun hx =>
            hnot (List.mem_cons_of_mem _ hx)
          obtain ⟨ha, hb⟩ := hnc3 hnot2
          rw [run_cons]
          exact ⟨ha.trans hsent2, hb.trans hw2⟩

lemma turnInv_postMute : turnInv postMuteState := by
  unfold turnInv
  decide

lemma callback_muted (r : Bool) (q : AioQueue) (c : Chunk) :
    pyaudio_callback true r q c = q := by
  simp [pyaudio_callback]

lemma callbackRun_muted (r : Bool) (q : AioQueue) (cs : List Chunk) :
    callbackRun true r q cs = q := by
  induction cs generalizing q with
  | nil => rfl
  | cons c cs ih =>
      show callbackRun true r (pyaudio_callback true r q c) cs = q
      rw [callback_muted]
      exact ih q

lemma put_nowait_unbounded (items : List Chunk) (c : Chunk) :
    AioQueue.put_nowait ⟨0, items⟩ c = some ⟨0, items ++ [c]⟩ := by
  simp [AioQueue.put_nowait, AioQueue.isFull]

lemma callback_live (r : Bool) (items : List Chunk) (c : Chunk) :
    pyaudio_callback false r ⟨0, items⟩ c
      = if r then ⟨0, items ++ [c]⟩ else ⟨0, items⟩ := by
  cases r <;> simp [pyaudio_callback, put_nowait_unbounded]

lemma callbackRun_live (cs : List Chunk) : ∀ items : List Chunk,
    callbackRun false true ⟨0, items⟩ cs = ⟨0, items ++ cs⟩ := by
  induction cs with
  | nil => intro items; simp [callbackRun]
  | cons c cs ih =>
      intro items
      show callbackRun false true (pyaudio_callback false true ⟨0, items⟩ c) cs = _
      rw [callback_live]
      rw [if_pos rfl]
      rw [ih (items ++ [c])]
      simp

lemma recv_pts (n : Nat) (p : RecvPath) : (recv n p).1.pts = n := by
  cases p <;> rfl

lemma recv_counter (n : Nat) (p : RecvPath) : (recv n p).2 = n + CHUNK_SIZE := by
  cases p <;> rfl

lemma recvFrames_pts (ps : List RecvPath) : ∀ n : Nat,
    List.map Frame.pts (recvFrames n ps)
      = List.map (fun i => n + CHUNK_SIZE * i) (List.range ps.length) := by
  induction ps with
  | nil => intro n; rfl
  | cons p ps ih =>
      intro n
      show Frame.pts (recv n p).1 :: List.map Frame.pts (recvFrames (recv n p).2 ps) = _
      rw [recv_pts, recv_counter, ih]
      rw [List.length_cons, List.range_succ_eq_map, List.map_cons, List.map_map]
      refine congrArg₂ List.cons (by simp) ?_
      refine List.map_congr_left (fun i _ => ?_)
      simp only [Function.comp_apply, Nat.succ_eq_add_one]
      ring

/-! ## Claims -/

/-- C1: for every turn and any interleaving of the commit-acknowledgment
handler (`input_audio_buffer.committed` → `request_answer`) and the
watchdog-expiry handler (`check_missed_turn`), starting from the state in
which the commit of the turn has just been sent, exactly one response.create
message is sent: both handlers go through the gated `request_answer`, and
only the first caller that passes the gate performs the send and sets
`waiting_for_reply`. -/
theorem C1_response_create_exactly_once (l : List Event)
    (hl : ∀ e ∈ l, e = Event.committedEvt ∨ e = Event.watchdogFire)
    (hmem : Event.committedEvt ∈ l) :
    countResponseCreate (run l postMuteState).sent = 1 := by
  obtain ⟨hinv, hw, _⟩ := run_turn_events l hl postMuteState turnInv_postMute
  exact hinv.2.2.1 (hw (Or.inl hmem))

/-- Witness for C1: both handlers fire, in both orders. -/
theorem C1_response_create_exactly_once_witness :
    countResponseCreate
        (run [Event.committedEvt, Event.watchdogFire] postMuteState).sent = 1
    ∧ countResponseCreate
        (run [Event.watchdogFire, Event.committedEvt] postMuteState).sent = 1 :=
  ⟨C1_response_create_exactly_once [Event.committedEvt, Event.watchdogFire]
      (by intro e he; fin_cases he
          · exact Or.inl rfl
          · exact Or.inr rfl)
      (List.mem_cons_self _ _),
   C1_response_create_exactly_once [Event.watchdogFire, Event.committedEvt]
      (by intro e he; fin_cases he
          · exact Or.inr rfl
          · exact Or.inl rfl)
      (by simp)⟩

/-- C2 counterexample: in a turn whose commit acknowledgment never
arrived, the watchdog fires and sends nothing at all - in particular it
does not send the forced response.create the claim requires, because
`check_missed_turn` demands `commit_received` before forcing. -/
theorem C2_cex_watchdog_alone_sends_nothing :
    (run [Event.watchdogFire] postMuteState).sent = postMuteState.sent
    ∧ countResponseCreate (run [Event.watchdogFire] postMuteState).sent = 0 := by
  constructor <;> rfl

/-- C2 amended: if the commit acknowledgment never arrives, the watchdog
handler (fired any number of times) sends no response.create at all; if
the acknowledgment arrives only after the watchdog fired, exactly one
response.create is then sent, so at most one is sent per turn. -/
theorem C2_amended_no_ack_no_force (n : Nat) :
    countResponseCreate
        (run (List.replicate n Event.watchdogFire) postMuteState).sent = 0
    ∧ countResponseCreate
        (run (List.replicate n Event.watchdogFire ++ [Event.committedEvt])
          postMuteState).sent = 1 := by
  have hl : ∀ e ∈ List.replicate n Event.watchdogFire,
      e = Event.committedEvt ∨ e = Event.watchdogFire :=
    fun e he => Or.inr (List.eq_of_mem_replicate he)
  have hnotmem : Event.committedEvt ∉ List.replicate n Event.watchdogFire := by
    intro hmem
    exact absurd (List.eq_of_mem_replicate hmem) (by simp)
  obtain ⟨hinv, _, hnc⟩ :=
    run_turn_events (List.replicate n Event.watchdogFire) hl
      postMuteState turnInv_postMute
  obtain ⟨hsent, hwf⟩ := hnc hnotmem
  constructor
  · rw [hsent]
    have := turnInv_postMute
    unfold turnInv at this
    exact (this.2.2.2 rfl).1
  · rw [run_append]
    obtain ⟨hinv2, hw2⟩ :=
      step_committed_inv (run (List.replicate n Event.watchdogFire) postMuteState) hinv
    have hrun : run [Event.committedEvt]
        (run (List.replicate n Event.watchdogFire) postMuteState)
        = step Event.committedEvt
            (run (List.replicate n Event.watchdogFire) postMuteState) := rfl
    rw [hrun]
    exact hinv2.2.2.1 hw2

/-- C3: the hardware capture callback forwards the received chunk into
the frame queue exactly when the track is not suspended and recording is
active; while suspended, no chunk is ever enqueued, over any number of
callback invocations, so none can be observed downstream. -/
theorem C3_callback_forwards_iff (suspended is_recording : Bool)
    (items : List Chunk) (c : Chunk) (cs : List Chunk) :
    (pyaudio_callback suspended is_recording ⟨0, items⟩ c = ⟨0, items ++ [c]⟩
        ↔ (suspended = false ∧ is_recording = true))
    ∧ (suspended = true →
        pyaudio_callback suspended is_recording ⟨0, items⟩ c = ⟨0, items⟩)
    ∧ callbackRun true is_recording ⟨0, items⟩ cs = ⟨0, items⟩ := by
  refine ⟨?_, ?_, callbackRun_muted is_recording ⟨0, items⟩ cs⟩
  · constructor
    · intro h
      cases suspended
      · cases is_recording
        · exfalso
          simp only [pyaudio_callback, Bool.not_false, Bool.and_false,
            Bool.false_eq_true, if_false] at h
          have := congrArg (fun q => q.items.length) h
          simp at this
        · exact ⟨rfl, rfl⟩
      · exfalso
        rw [callback_muted] at h
        have := congrArg (fun q => q.items.length) h
        simp at this
    · rintro ⟨rfl, rfl⟩
      rw [callback_live]
      simp
  · rintro rfl
    exact callback_muted is_recording ⟨0, items⟩ c

/-- Witness for C3: unmuted recording forwards; suspended drops. -/
theorem C3_callback_forwards_iff_witness :
    pyaudio_callback false true ⟨0, []⟩ silence_data = ⟨0, [] ++ [silence_data]⟩
    ∧ pyaudio_callback true true ⟨0, [silence_data]⟩ silence_data
        = ⟨0, [silence_data]⟩ :=
  ⟨(C3_callback_forwards_iff false true [] silence_data []).1.mpr ⟨rfl, rfl⟩,
   (C3_callback_forwards_iff true true [silence_data] silence_data []).2.1 rfl⟩

/-- C4: every call to `recv`, on each of its three return paths (real
frame, silence on queue timeout, silence on internal error), stamps the
frame with the current `samples_sent` counter and advances the counter by
exactly `CHUNK_SIZE`; over any sequence of calls the emitted timestamps
are `start, start + CHUNK_SIZE, start + 2 * CHUNK_SIZE, ...` - strictly
increasing by exactly the chunk size with no gaps, repeats or resets. -/
theorem C4_pts_strictly_increasing (samples_sent : Nat) (p : RecvPath)
    (ps : List RecvPath) :
    (recv samples_sent p).1.pts = samples_sent
    ∧ (recv samples_sent p).2 = samples_sent + CHUNK_SIZE
    ∧ List.map Frame.pts (recvFrames samples_sent ps)
        = List.map (fun i => samples_sent + CHUNK_SIZE * i)
            (List.range ps.length)
    ∧ 0 < CHUNK_SIZE :=
  ⟨recv_pts samples_sent p, recv_counter samples_sent p,
   recvFrames_pts ps samples_sent, by decide⟩

/-- C5 counterexample: the frame queue is created as `asyncio.Queue()`
with the default maxsize 0, i.e. unbounded - there is no bound that the
queue length respects across callback invocations. -/
theorem C5_cex_queue_not_bounded : ¬ framesQueueBounded := by
  rintro ⟨B, hB⟩
  have h1 := hB (B + 1)
  have h2 : (framesQueueAfter (B + 1)).items.length = B + 1 := by
    show (callbackRun false true ⟨0, []⟩ _).items.length = B + 1
    rw [callbackRun_live]
    simp
  omega

/-- C5 amended: the frame queue is created unbounded (asyncio.Queue with
default maxsize 0): it is never full, the producer push (`put_nowait`)
is non-blocking and always succeeds, so the hardware thread is never
back-pressured and no chunk is ever dropped; in exchange the queue
length is not bounded by any constant and grows by one per forwarded
chunk. -/
theorem C5_amended_queue_unbounded (items : List Chunk) (c : Chunk) (n : Nat) :
    AioQueue.isFull ⟨0, items⟩ = false
    ∧ AioQueue.put_nowait ⟨0, items⟩ c = some ⟨0, items ++ [c]⟩
    ∧ framesQueueInit.maxsize = 0
    ∧ (framesQueueAfter n).items.length = n := by
  refine ⟨by simp [AioQueue.isFull], put_nowait_unbounded items c, rfl, ?_⟩
  show (callbackRun false true ⟨0, []⟩ _).items.length = n
  rw [callbackRun_live]
  simp

/-- C6: when the bounded-wait dequeue times out, `recv` synthesizes a
zero-filled chunk of the configured chunk size, channel count and sample
rate, stamps it and advances the sample counter exactly as the real-frame
path does, and returns it - `recv` is total, so every call returns a
frame. -/
theorem C6_timeout_silence_frame (n : Nat) (d : Chunk) :
    (recv n RecvPath.timeout).1.samples = List.replicate CHUNK_SIZE 0
    ∧ (recv n RecvPath.timeout).1.samples.length = CHUNK_SIZE
    ∧ (recv n RecvPath.timeout).1.channels = CHANNELS
    ∧ (recv n RecvPath.timeout).1.sample_rate = SAMPLE_RATE
    ∧ (recv n RecvPath.timeout).1.pts = (recv n (RecvPath.real d)).1.pts
    ∧ (recv n RecvPath.timeout).2 = (recv n (RecvPath.real d)).2 :=
  ⟨rfl, by simp [recv, silence_data], rfl, rfl, rfl, rfl⟩

/-- C7: a press edge arriving while the mute-grace timer is pending (mic
still live, no reply pending) cancels the pending timers and returns to
Listening - mic still unmuted, speech segment re-opened - without any
message (in particular no input_audio_buffer.commit) being sent. -/
theorem C7_press_cancels_pending_mute (s : ClientState)
    (hmt : s.mute_timer = true) (hw : s.waiting_for_reply = false)
    (hsusp : s.suspended = false) (hswd : s.space_was_down = false) :
    (step (Event.poll true) s).mute_timer = false
    ∧ (step (Event.poll true) s).watchdog = false
    ∧ (step (Event.poll true) s).suspended = false
    ∧ (step (Event.poll true) s).speech_active = true
    ∧ (step (Event.poll true) s).sent = s.sent := by
  obtain ⟨w, cr, su, ch, swd, mt, wd, sp, sent⟩ := s
  subst hw; subst hsusp; subst hswd; subst hmt
  simp [step, pollStep]

/-- Witness for C7: the state reached by press then release from idle. -/
theorem C7_press_cancels_pending_mute_witness :
    (step (Event.poll true) (run [Event.poll true, Event.poll false] idleState)).mute_timer = false
    ∧ (step (Event.poll true) (run [Event.poll true, Event.poll false] idleState)).watchdog = false
    ∧ (step (Event.poll true) (run [Event.poll true, Event.poll false] idleState)).suspended = false
    ∧ (step (Event.poll true) (run [Event.poll true, Event.poll false] idleState)).speech_active = true
    ∧ (step (Event.poll true) (run [Event.poll true, Event.poll false] idleState)).sent
        = (run [Event.poll true, Event.poll false] idleState).sent :=
  C7_press_cancels_pending_mute (run [Event.poll true, Event.poll false] idleState)
    rfl rfl rfl rfl

/-- C8: a press edge arriving while `waiting_for_reply` is set is
ignored: the mic suspension state is unchanged (not unmuted), no new
speech segment starts, nothing is sent, and the reply flag stays set. -/
theorem C8_press_ignored_while_waiting (s : ClientState)
    (hw : s.waiting_for_reply = true) (hswd : s.space_was_down = false) :
    (step (Event.poll true) s).suspended = s.suspended
    ∧ (step (Event.poll true) s).speech_active = s.speech_active
    ∧ (step (Event.poll true) s).sent = s.sent
    ∧ (step (Event.poll true) s).waiting_for_reply = true := by
  obtain ⟨w, cr, su, ch, swd, mt, wd, sp, sent⟩ := s
  subst hw; subst hswd
  simp [step, pollStep]

/-- Witness for C8: press while a reply is pending in the idle-shaped
state. -/
theorem C8_press_ignored_while_waiting_witness :
    (step (Event.poll true) { idleState with waiting_for_reply := true }).suspended
        = ({ idleState with waiting_for_reply := true } : ClientState).suspended
    ∧ (step (Event.poll true) { idleState with waiting_for_reply := true }).speech_active
        = ({ idleState with waiting_for_reply := true } : ClientState).speech_active
    ∧ (step (Event.poll true) { idleState with waiting_for_reply := true }).sent
        = ({ idleState with waiting_for_reply := true } : ClientState).sent
    ∧ (step (Event.poll true) { idleState with waiting_for_reply := true }).waiting_for_reply
        = true :=
  C8_press_ignored_while_waiting { idleState with waiting_for_reply := true } rfl rfl

/-- C9: in the playback loop a success resets the consecutive-error
counter, a real frame error increments it and aborts as fatal exactly
when the incremented counter reaches the threshold of 3; hence two
errors followed by a success leave the loop exactly as if nothing had
happened, while three consecutive errors always abort fatally. -/
theorem C9_playback_error_threshold (c : Nat) (rest : List Outcome) :
    play_track c (Outcome.okFrame :: rest) = play_track 0 rest
    ∧ play_track c (Outcome.frameError :: rest)
        = (if max_consecutive_errors ≤ c + 1 then PlayExit.fatal
           else play_track (c + 1) rest)
    ∧ play_track 0 (Outcome.frameError :: Outcome.frameError :: Outcome.okFrame :: rest)
        = play_track 0 rest
    ∧ play_track c (Outcome.frameError :: Outcome.frameError :: Outcome.frameError :: rest)
        = PlayExit.fatal := by
  refine ⟨rfl, rfl, ?_, ?_⟩
  · show (if max_consecutive_errors ≤ 0 + 1 then PlayExit.fatal
        else play_track 1 (Outcome.frameError :: Outcome.okFrame :: rest)) = _
    rw [if_neg (by unfold max_consecutive_errors; omega)]
    show (if max_consecutive_errors ≤ 1 + 1 then PlayExit.fatal
        else play_track 2 (Outcome.okFrame :: rest)) = _
    rw [if_neg (by unfold max_consecutive_errors; omega)]
    rfl
  · show (if max_consecutive_errors ≤ c + 1 then PlayExit.fatal
        else play_track (c + 1) (Outcome.frameError :: Outcome.frameError :: rest)) = _
    unfold max_consecutive_errors
    split_ifs with h1
    · rfl
    · show (if 3 ≤ c + 1 + 1 then PlayExit.fatal
          else play_track (c + 2) (Outcome.frameError :: rest)) = _
      split_ifs with h2
      · rfl
      · show (if 3 ≤ c + 2 + 1 then PlayExit.fatal else _) = _
        rw [if_pos (by omega)]

/-- C10: the gated `request_answer` sends response.create only when the
mic is suspended, the commit flag is set and the waiting flag is clear;
in particular a commit acknowledgment handled while the mic is still
unmuted sends nothing at that moment. -/
theorem C10_gate_needs_all_three (s : ClientState) :
    ((request_answer s).sent ≠ s.sent →
        s.suspended = true ∧ s.commit_received = true
          ∧ s.waiting_for_reply = false)
    ∧ (s.suspended = false → (step Event.committedEvt s).sent = s.sent) := by
  obtain ⟨w, cr, su, ch, swd, mt, wd, sp, sent⟩ := s
  constructor
  · intro h
    cases su <;> cases cr <;> cases w <;>
      simp_all [request_answer]
  · rintro rfl
    simp [step, request_answer]

/-- Witness for C10: a state where the gate fires (all three conditions)
and a state where the ack arrives while the mic is unmuted. -/
theorem C10_gate_needs_all_three_witness :
    (ClientState.suspended { idleState with commit_received := true } = true
      ∧ ClientState.commit_received { idleState with commit_received := true } = true
      ∧ ClientState.waiting_for_reply { idleState with commit_received := true } = false)
    ∧ (step Event.committedEvt { idleState with suspended := false }).sent
        = ({ idleState with suspended := false } : ClientState).sent :=
  ⟨(C10_gate_needs_all_three { idleState with commit_received := true }).1
      (by decide),
   (C10_gate_needs_all_three { idleState with suspended := false }).2 rfl⟩

end Spec2Proof
